import Mathlib

/-!
Verification development for the meilimelo MeiliSearch client.

Shallow embedding of the query-construction and result-decoding pipeline:
the facet-filter builder (src/facets.rs), the fluent query builder and its
execution path (src/search.rs), the result container (src/results.rs), the
error taxonomy (src/lib.rs), and the document-deletion operation
(src/documents.rs).
-/

namespace Meilimelo

/-- Minimal JSON value model, used for serde-style encoding and decoding. -/
inductive Json where
  | null : Json
  | bool (b : Bool) : Json
  | num (n : Int) : Json
  | str (s : String) : Json
  | arr (elems : List Json) : Json
  | obj (fields : List (String × Json)) : Json
deriving Repr

/-- First-match field lookup in a JSON object field list. -/
def jlookup (fields : List (String × Json)) (key : String) : Option Json :=
  match fields with
  | [] => none
  | (k, v) :: rest => if k = key then some v else jlookup rest key

/-! ## Facet filters (src/facets.rs) -/

/-- Embeds `struct FacetBuilder { current: Vec<String>, accumulator: Vec<Vec<String>> }`. -/
structure FacetBuilder where
  current : List String
  accumulator : List (List String)
deriving Repr, DecidableEq

/-- Embeds `struct Facets { accumulator: Vec<Vec<String>> }`. -/
structure Facets where
  accumulator : List (List String)
deriving Repr, DecidableEq

/-- Embeds `FacetBuilder::new`: one open group seeded with `key:value`. -/
def FacetBuilder.new (key value : String) : FacetBuilder :=
  { current := [key ++ ":" ++ value], accumulator := [] }

/-- Embeds `FacetBuilder::or`: pushes `key:value` onto the open group. -/
def FacetBuilder.or (b : FacetBuilder) (key value : String) : FacetBuilder :=
  { b with current := b.current ++ [key ++ ":" ++ value] }

/-- Embeds `FacetBuilder::and`: closes the open group and seeds a new one. -/
def FacetBuilder.and (b : FacetBuilder) (key value : String) : FacetBuilder :=
  { current := [key ++ ":" ++ value], accumulator := b.accumulator ++ [b.current] }

/-- Embeds `FacetBuilder::build`: closes the open group and returns the spec. -/
def FacetBuilder.build (b : FacetBuilder) : Facets :=
  { accumulator := b.accumulator ++ [b.current] }

/-- Embeds `Facets::get`. -/
def Facets.get (f : Facets) : List (List String) :=
  f.accumulator

/-- One `or`/`and` call on a facet builder, with its arguments. -/
inductive FacetCall where
  | orC (key value : String) : FacetCall
  | andC (key value : String) : FacetCall
deriving Repr, DecidableEq

/-- Applies one facet-builder call. -/
def applyFacetCall (b : FacetBuilder) : FacetCall → FacetBuilder
  | .orC k v => b.or k v
  | .andC k v => b.and k v

/-- Applies a sequence of facet-builder calls, left to right. -/
def applyFacetCalls (b : FacetBuilder) (calls : List FacetCall) : FacetBuilder :=
  calls.foldl applyFacetCall b

/-- Number of `and` calls in a call sequence. -/
def countAnd : List FacetCall → Nat
  | [] => 0
  | .orC _ _ :: rest => countAnd rest
  | .andC _ _ :: rest => countAnd rest + 1

/-- Per-group counts of `or` calls: splits the sequence at each `and` and
counts the `or` calls in every segment, beginning at the start. -/
def orRuns : List FacetCall → List Nat
  | [] => [0]
  | .orC _ _ :: rest =>
      match orRuns rest with
      | [] => [1]
      | c :: cs => (c + 1) :: cs
  | .andC _ _ :: rest => 0 :: orRuns rest

/-- Spec-side reference semantics of a facet call sequence: starting from a
group holding the clauses `first`, an `or` appends a clause to the current
group and an `and` closes it and opens a new group. -/
def facetGroupsFrom (first : List String) : List FacetCall → List (List String)
  | [] => [first]
  | .orC k v :: rest => facetGroupsFrom (first ++ [k ++ ":" ++ v]) rest
  | .andC k v :: rest => first :: facetGroupsFrom [k ++ ":" ++ v] rest

/-- The builder pipeline computes exactly the reference grouping, for any
starting builder state. -/
lemma build_applyFacetCalls (b : FacetBuilder) (calls : List FacetCall) :
    (applyFacetCalls b calls).build.get =
      b.accumulator ++ facetGroupsFrom b.current calls := by
  induction calls generalizing b with
  | nil => rfl
  | cons c rest ih =>
    cases c with
    | orC k v =>
      simp only [applyFacetCalls, List.foldl_cons, applyFacetCall, facetGroupsFrom]
      exact ih _
    | andC k v =>
      have h := ih (b.and k v)
      simp only [applyFacetCalls, List.foldl_cons, applyFacetCall, facetGroupsFrom] at h ⊢
      rw [h]
      simp [FacetBuilder.and, List.append_assoc]

/-! ## Search query builder (src/search.rs) -/

/-- Embeds `enum Crop<'a> { Attr(&'a str), At(&'a str, i64) }`. -/
inductive Crop where
  | Attr (attr : String) : Crop
  | At (attr : String) (length : Int) : Crop
deriving Repr, DecidableEq

/-- Serialization of one crop directive, as in the match inside `Query::crop`:
`Attr(a)` becomes `a` and `At(a, n)` becomes `a:n`. -/
def Crop.serialize : Crop → String
  | .Attr attr => attr
  | .At attr length => attr ++ ":" ++ toString length

/-- Embeds `struct Query<'m>` (src/search.rs lines 33-60), without the
non-serialized client reference. Field names follow the Rust field names. -/
structure Query where
  index : String
  query : Option String
  filters : Option String
  facets : Option (List (List String))
  limit : Option Int
  offset : Option Int
  retrieve : Option (List String)
  crop : Option (List String)
  crop_length : Option Int
  highlight : Option (List String)
  distribution : Option (List String)
  matchesFlag : Bool
deriving Repr, DecidableEq

/-- Embeds `Query::new`: every optional field starts empty, `matches` false. -/
def Query.new (index : String) : Query :=
  { index := index, query := none, filters := none, facets := none,
    limit := none, offset := none, retrieve := none, crop := none,
    crop_length := none, highlight := none, distribution := none,
    matchesFlag := false }

/-- Embeds the setter `Query::query`. -/
def Query.set_query (q : Query) (v : String) : Query :=
  { q with query := some v }

/-- Embeds the setter `Query::filters`. -/
def Query.set_filters (q : Query) (v : String) : Query :=
  { q with filters := some v }

/-- Embeds the setter `Query::limit`. -/
def Query.set_limit (q : Query) (n : Int) : Query :=
  { q with limit := some n }

/-- Embeds the setter `Query::offset`. -/
def Query.set_offset (q : Query) (n : Int) : Query :=
  { q with offset := some n }

/-- Embeds the setter `Query::facets`: stores `facets.get()`. -/
def Query.set_facets (q : Query) (f : Facets) : Query :=
  { q with facets := some f.get }

/-- Embeds the setter `Query::retrieve`. -/
def Query.set_retrieve (q : Query) (attributes : List String) : Query :=
  { q with retrieve := some attributes }

/-- Embeds the setter `Query::distribution`. -/
def Query.set_distribution (q : Query) (facets : List String) : Query :=
  { q with distribution := some facets }

/-- Embeds the setter `Query::crop`: maps each directive to its string form. -/
def Query.set_crop (q : Query) (attributes : List Crop) : Query :=
  { q with crop := some (attributes.map Crop.serialize) }

/-- Embeds the setter `Query::crop_length`. -/
def Query.set_crop_length (q : Query) (length : Int) : Query :=
  { q with crop_length := some length }

/-- Embeds the setter `Query::highlight`. -/
def Query.set_highlight (q : Query) (attributes : List String) : Query :=
  { q with highlight := some attributes }

/-- One public setter call on the query builder, with its arguments. This
enumerates every setter `Query` exposes (src/search.rs lines 113-296). -/
inductive Setter where
  | query (v : String) : Setter
  | filters (v : String) : Setter
  | limit (n : Int) : Setter
  | offset (n : Int) : Setter
  | facets (f : Facets) : Setter
  | retrieve (a : List String) : Setter
  | distribution (a : List String) : Setter
  | crop (a : List Crop) : Setter
  | crop_length (n : Int) : Setter
  | highlight (a : List String) : Setter

/-- Applies one setter call. -/
def applySetter (q : Query) : Setter → Query
  | .query v => q.set_query v
  | .filters v => q.set_filters v
  | .limit n => q.set_limit n
  | .offset n => q.set_offset n
  | .facets f => q.set_facets f
  | .retrieve a => q.set_retrieve a
  | .distribution a => q.set_distribution a
  | .crop a => q.set_crop a
  | .crop_length n => q.set_crop_length n
  | .highlight a => q.set_highlight a

/-- Applies a sequence of setter calls, left to right. -/
def applySetters (q : Query) (calls : List Setter) : Query :=
  calls.foldl applySetter q

/-- JSON encoding of a string list. -/
def jstrList (l : List String) : Json :=
  .arr (l.map .str)

/-- serde encoding of an `Option` field without skip attributes: `None`
serializes to JSON null. -/
def optJson (f : α → Json) : Option α → Json
  | none => .null
  | some a => f a

/-- serde serialization of `Query` into its request-body fields, in struct
declaration order with the declared renames; the client reference and the
index name are skipped (`skip_serializing`). -/
def Query.serialize (q : Query) : List (String × Json) :=
  [("q", optJson Json.str q.query),
   ("filters", optJson Json.str q.filters),
   ("facetFilters", optJson (fun g => Json.arr (g.map jstrList)) q.facets),
   ("limit", optJson Json.num q.limit),
   ("offset", optJson Json.num q.offset),
   ("attributesToRetrieve", optJson jstrList q.retrieve),
   ("attributesToCrop", optJson jstrList q.crop),
   ("cropLength", optJson Json.num q.crop_length),
   ("attributesToHighlight", optJson jstrList q.highlight),
   ("facetsDistribution", optJson jstrList q.distribution),
   ("matches", Json.bool q.matchesFlag)]

/-! ## Result container (src/results.rs) -/

/-- Embeds `struct Results<T>` (src/results.rs). `hits` is the `nbHits`
count; `results` is the ordered hit list (JSON field `hits`). The facet
distribution map is modelled as an association list. -/
structure Results (T : Type) where
  query : String
  exhaustive_hits : Bool
  hits : Int
  exhaustive_facets : Option Bool
  distribution : Option (List (String × List (String × Int)))
  limit : Int
  offset : Int
  duration : Int
  results : List T
deriving Repr, DecidableEq

/-- State of a vector iterator: the elements not yet yielded, in order. -/
structure VecIter (T : Type) where
  remaining : List T
deriving Repr, DecidableEq

/-- One iterator step: yields the next element and the advanced iterator,
or nothing when exhausted. -/
def VecIter.next : VecIter T → Option (T × VecIter T)
  | ⟨[]⟩ => none
  | ⟨x :: xs⟩ => some (x, ⟨xs⟩)

/-- Drives an iterator to exhaustion, collecting the yielded elements in
order. -/
def VecIter.collect : VecIter T → List T
  | ⟨[]⟩ => []
  | ⟨x :: xs⟩ => x :: VecIter.collect ⟨xs⟩

/-- Iterator state after driving the iterator to exhaustion. -/
def VecIter.exhaust : VecIter T → VecIter T
  | ⟨[]⟩ => ⟨[]⟩
  | ⟨_ :: xs⟩ => VecIter.exhaust ⟨xs⟩

/-- Embeds `impl IntoIterator for Results<T>`: consuming iteration over the
hit vector. -/
def Results.into_iter (r : Results T) : VecIter T :=
  ⟨r.results⟩

/-- Embeds `impl IntoIterator for &Results<T>`: by-reference iteration over
the hit vector; the `Results` value itself is untouched, so the iterator can
be recreated any number of times. -/
def Results.iterRef (r : Results T) : VecIter T :=
  ⟨r.results⟩

/-! ## Error taxonomy and request execution (src/lib.rs, src/search.rs) -/

/-- Embeds `struct QueryError` (src/search.rs lines 70-79). -/
structure QueryError where
  kind : String
  code : String
  message : String
  link : String
deriving Repr, DecidableEq

/-- Underlying cause carried by an upstream/transport failure: either the
send itself failed, or a response body failed to decode as the expected
shape. -/
inductive UpstreamCause where
  | send (message : String) : UpstreamCause
  | decode (body : Json) : UpstreamCause
deriving Repr

/-- Embeds `enum Error` (src/lib.rs lines 47-55). -/
inductive Error where
  | UpstreamError (cause : UpstreamCause) : Error
  | InvalidQuery (error : QueryError) : Error
deriving Repr

/-- Outcome of sending an HTTP request: the send fails, or a response with a
status code and a body arrives. -/
inductive SendOutcome where
  | failure (message : String) : SendOutcome
  | response (status : Nat) (body : Json) : SendOutcome
deriving Repr

/-- serde-style decoding of a required string field. -/
def decodeStrField (fields : List (String × Json)) (key : String) : Option String :=
  match jlookup fields key with
  | some (.str s) => some s
  | _ => none

/-- serde-style decoding of a required boolean field. -/
def decodeBoolField (fields : List (String × Json)) (key : String) : Option Bool :=
  match jlookup fields key with
  | some (.bool b) => some b
  | _ => none

/-- serde-style decoding of a required integer field. -/
def decodeIntField (fields : List (String × Json)) (key : String) : Option Int :=
  match jlookup fields key with
  | some (.num n) => some n
  | _ => none

/-- Decodes `QueryError` from a response body the way the derived
`Deserialize` does: the body must be a JSON object and the four renamed
fields (`errorType`, `errorCode`, `message`, `errorLink`) must be strings;
unknown fields are ignored. -/
def decodeQueryError (body : Json) : Option QueryError :=
  match body with
  | .obj fields =>
    match decodeStrField fields "errorType", decodeStrField fields "errorCode",
          decodeStrField fields "message", decodeStrField fields "errorLink" with
    | some kind, some code, some message, some link =>
      some { kind := kind, code := code, message := message, link := link }
    | _, _, _, _ => none
  | _ => none

/-- serde-style decoding of an `Option<bool>` field: a missing field or a
JSON null is `None`; any other non-boolean value is a decode failure. -/
def decodeOptBoolField (fields : List (String × Json)) (key : String) :
    Option (Option Bool) :=
  match jlookup fields key with
  | none => some none
  | some .null => some none
  | some (.bool b) => some (some b)
  | some _ => none

/-- Decodes a map from string to integer, as for the inner
`HashMap<String, i64>`. -/
def decodeIntMap (j : Json) : Option (List (String × Int)) :=
  match j with
  | .obj fields =>
    fields.foldr
      (fun kv acc =>
        match acc, kv with
        | some l, (k, .num n) => some ((k, n) :: l)
        | _, _ => none)
      (some [])
  | _ => none

/-- serde-style decoding of the optional `facetsDistribution` map. -/
def decodeDistributionField (fields : List (String × Json)) :
    Option (Option (List (String × List (String × Int)))) :=
  match jlookup fields "facetsDistribution" with
  | none => some none
  | some .null => some none
  | some (.obj outer) =>
    (outer.foldr
      (fun kv acc =>
        match acc, decodeIntMap kv.2 with
        | some l, some m => some ((kv.1, m) :: l)
        | _, _ => none)
      (some [])).map some
  | some _ => none

/-- Decodes each element of a JSON array with the hit decoder, failing if
the body is not an array or any element fails. -/
def decodeHits (decodeT : Json → Option T) (j : Json) : Option (List T) :=
  match j with
  | .arr elems =>
    elems.foldr
      (fun e acc =>
        match acc, decodeT e with
        | some l, some t => some (t :: l)
        | _, _ => none)
      (some [])
  | _ => none

/-- Decodes `Results<T>` from a response body the way the derived
`Deserialize` does, given a decoder for the hit type `T`: the body must be a
JSON object, the required fields must be present with their renamed names,
and the two optional fields default to `None` when absent or null. -/
def decodeResults (decodeT : Json → Option T) (body : Json) :
    Option (Results T) :=
  match body with
  | .obj fields =>
    match decodeStrField fields "query", decodeBoolField fields "exhaustiveNbHits",
          decodeIntField fields "nbHits", decodeOptBoolField fields "exhaustiveFacetsCount",
          decodeDistributionField fields with
    | some query, some ehits, some nb, some efacets, some dist =>
      match decodeIntField fields "limit", decodeIntField fields "offset",
            decodeIntField fields "processingTimeMs",
            (jlookup fields "hits").bind (decodeHits decodeT) with
      | some limit, some offset, some duration, some hits =>
        some { query := query, exhaustive_hits := ehits, hits := nb,
               exhaustive_facets := efacets, distribution := dist,
               limit := limit, offset := offset, duration := duration,
               results := hits }
      | _, _, _, _ => none
    | _, _, _, _, _ => none
  | _ => none

/-- Embeds `Query::run` (src/search.rs lines 298-329), given the outcome of
sending the serialized request. A send failure is wrapped as
`Error::UpstreamError`; a 200 (`StatusCode::OK`) response decodes as
`Results<T>` and is returned `Ok`; any other status decodes as `QueryError`
and is returned as `Error::InvalidQuery`; a body that fails to decode as the
shape its branch expects is wrapped as `Error::UpstreamError`. -/
def Query.run (decodeT : Json → Option T) (_q : Query) (outcome : SendOutcome) :
    Except Error (Results T) :=
  match outcome with
  | .failure message => .error (.UpstreamError (.send message))
  | .response status body =>
    if status = 200 then
      match decodeResults decodeT body with
      | some results => .ok results
      | none => .error (.UpstreamError (.decode body))
    else
      match decodeQueryError body with
      | some queryError => .error (.InvalidQuery queryError)
      | none => .error (.UpstreamError (.decode body))

/-! ## Document deletion (src/documents.rs, src/lib.rs) -/

/-- HTTP methods as used through `reqwest::Method`. -/
inductive Method where
  | GET : Method
  | POST : Method
  | PUT : Method
  | DELETE : Method
deriving Repr, DecidableEq

/-- Embeds `struct Update` (src/documents.rs lines 7-11). -/
structure Update where
  id : Int
deriving Repr, DecidableEq

/-- Decodes `Update` from a response body the way the derived `Deserialize`
does: a JSON object whose `updateId` field is an integer. -/
def decodeUpdate (body : Json) : Option Update :=
  match body with
  | .obj fields =>
    match decodeIntField fields "updateId" with
    | some n => some { id := n }
    | none => none
  | _ => none

/-- The request issued by `documents::delete` (src/documents.rs lines
65-76): method and path, exactly as passed to `meili.request`. -/
def deleteDocumentRequest (index uid : String) : Method × String :=
  (Method.GET, "/indexes/" ++ index ++ "/documents/" ++ uid)

/-- Embeds the response handling of `documents::delete` (also reached via
`MeiliMelo::delete_document`): no status branching, the body is decoded as
`Update`; send or decode failure is wrapped as `Error::UpstreamError`. -/
def deleteDocumentHandle (outcome : SendOutcome) : Except Error Update :=
  match outcome with
  | .failure message => .error (.UpstreamError (.send message))
  | .response _ body =>
    match decodeUpdate body with
    | some u => .ok u
    | none => .error (.UpstreamError (.decode body))

/-! ## Supporting lemmas -/

lemma orRuns_ne_nil (calls : List FacetCall) : orRuns calls ≠ [] := by
  cases calls with
  | nil => simp [orRuns]
  | cons c rest =>
    cases c with
    | orC k v =>
      simp only [orRuns]
      cases orRuns rest <;> simp
    | andC k v => simp [orRuns]

lemma facetGroupsFrom_length (first : List String) (calls : List FacetCall) :
    (facetGroupsFrom first calls).length = countAnd calls + 1 := by
  induction calls generalizing first with
  | nil => rfl
  | cons c rest ih =>
    cases c with
    | orC k v => simpa [facetGroupsFrom, countAnd] using ih _
    | andC k v => simp [facetGroupsFrom, countAnd, ih]

lemma facetGroupsFrom_lengths (first : List String) (calls : List FacetCall) :
    (facetGroupsFrom first calls).map List.length =
      (first.length + (orRuns calls).headI) ::
        ((orRuns calls).tail.map (fun n => n + 1)) := by
  induction calls generalizing first with
  | nil => simp [facetGroupsFrom, orRuns]
  | cons c rest ih =>
    cases c with
    | orC k v =>
      rcases hr : orRuns rest with _ | ⟨n, ns⟩
      · exact absurd hr (orRuns_ne_nil rest)
      · have h := ih (first ++ [k ++ ":" ++ v])
        simp only [hr, List.headI, List.tail] at h
        simp only [facetGroupsFrom, orRuns, hr, List.headI, List.tail]
        rw [h]
        simp only [List.cons.injEq, List.length_append, List.length_singleton]
        exact ⟨by omega, trivial⟩
    | andC k v =>
      rcases hr : orRuns rest with _ | ⟨n, ns⟩
      · exact absurd hr (orRuns_ne_nil rest)
      · have h := ih [k ++ ":" ++ v]
        simp only [hr, List.headI, List.tail, List.length_singleton] at h
        simp only [facetGroupsFrom, orRuns, hr, List.headI, List.tail,
          List.map_cons, h]
        simp [Nat.add_comm]

lemma facetGroupsFrom_all_ne_nil (first : List String) (calls : List FacetCall)
    (hfirst : first ≠ []) :
    ∀ g ∈ facetGroupsFrom first calls, g ≠ [] := by
  induction calls generalizing first with
  | nil =>
    intro g hg
    simp only [facetGroupsFrom, List.mem_singleton] at hg
    simpa [hg] using hfirst
  | cons c rest ih =>
    cases c with
    | orC k v =>
      intro g hg
      exact ih _ (by simp) g hg
    | andC k v =>
      intro g hg
      simp only [facetGroupsFrom, List.mem_cons] at hg
      rcases hg with rfl | hg
      · exact hfirst
      · exact ih _ (by simp) g hg

/-! ## Claims -/

/-- C2: for every sequence of `or`/`and` calls between `FacetBuilder::new`
and `build()`, the resulting spec is exactly the reference grouping (clauses
`key:value` in call order, groups split at each `and`), its group count is
the number of `and` calls plus one, each group's clause count is the number
of `or` calls in its segment plus one, and the worked example from the spec
evaluates as stated. -/
theorem facetBuilder_grouping (k v : String) (calls : List FacetCall) :
    ((applyFacetCalls (FacetBuilder.new k v) calls).build.get
        = facetGroupsFrom [k ++ ":" ++ v] calls)
    ∧ ((applyFacetCalls (FacetBuilder.new k v) calls).build.get.length
        = countAnd calls + 1)
    ∧ ((applyFacetCalls (FacetBuilder.new k v) calls).build.get.map List.length
        = (orRuns calls).map (fun n => n + 1))
    ∧ ((applyFacetCalls (FacetBuilder.new "company" "ACME")
          [FacetCall.orC "company" "Big Corp", FacetCall.andC "roles" "Tech"]).build.get
        = [["company:ACME", "company:Big Corp"], ["roles:Tech"]]) := by
  have hmain : (applyFacetCalls (FacetBuilder.new k v) calls).build.get
      = facetGroupsFrom [k ++ ":" ++ v] calls := by
    simpa [FacetBuilder.new] using build_applyFacetCalls (FacetBuilder.new k v) calls
  refine ⟨hmain, ?_, ?_, by decide⟩
  · rw [hmain, facetGroupsFrom_length]
  · rw [hmain, facetGroupsFrom_lengths]
    rcases hr : orRuns calls with _ | ⟨n, ns⟩
    · exact absurd hr (orRuns_ne_nil calls)
    · simp [List.headI, List.tail, Nat.add_comm]

/-- C8: for every `FacetBuilder` on which `new` was called followed by any
sequence of `or`/`and` calls, `build()` yields at least one group and no
group in the yielded spec is empty. -/
theorem facetBuilder_no_empty_group (k v : String) (calls : List FacetCall) :
    ((applyFacetCalls (FacetBuilder.new k v) calls).build.get ≠ [])
    ∧ (∀ g ∈ (applyFacetCalls (FacetBuilder.new k v) calls).build.get, g ≠ []) := by
  have hmain : (applyFacetCalls (FacetBuilder.new k v) calls).build.get
      = facetGroupsFrom [k ++ ":" ++ v] calls := by
    simpa [FacetBuilder.new] using build_applyFacetCalls (FacetBuilder.new k v) calls
  constructor
  · rw [hmain]
    intro hcontra
    have := facetGroupsFrom_length [k ++ ":" ++ v] calls
    rw [hcontra] at this
    simp at this
  · rw [hmain]
    exact facetGroupsFrom_all_ne_nil _ _ (by simp)

/-- C3: every `Query` setter returns a value in which exactly the targeted
field is changed and every other field (including the index and the
`matches` flag) is unchanged; and from the freshly constructed builder the
chain `query("x").limit(10).offset(5)` yields a value with those three
fields set and all other optional fields still empty. -/
theorem query_setters_frame (q : Query) (idx s t : String) (m n p : Int)
    (f : Facets) (a b d : List String) (c : List Crop) :
    ((q.set_query s).query = some s)
    ∧ ((q.set_query s).index = q.index)
    ∧ ((q.set_query s).filters = q.filters)
    ∧ ((q.set_query s).facets = q.facets)
    ∧ ((q.set_query s).limit = q.limit)
    ∧ ((q.set_query s).offset = q.offset)
    ∧ ((q.set_query s).retrieve = q.retrieve)
    ∧ ((q.set_query s).crop = q.crop)
    ∧ ((q.set_query s).crop_length = q.crop_length)
    ∧ ((q.set_query s).highlight = q.highlight)
    ∧ ((q.set_query s).distribution = q.distribution)
    ∧ ((q.set_query s).matchesFlag = q.matchesFlag)
    ∧ ((q.set_filters t).filters = some t)
    ∧ ((q.set_filters t).index = q.index)
    ∧ ((q.set_filters t).query = q.query)
    ∧ ((q.set_filters t).facets = q.facets)
    ∧ ((q.set_filters t).limit = q.limit)
    ∧ ((q.set_filters t).offset = q.offset)
    ∧ ((q.set_filters t).retrieve = q.retrieve)
    ∧ ((q.set_filters t).crop = q.crop)
    ∧ ((q.set_filters t).crop_length = q.crop_length)
    ∧ ((q.set_filters t).highlight = q.highlight)
    ∧ ((q.set_filters t).distribution = q.distribution)
    ∧ ((q.set_filters t).matchesFlag = q.matchesFlag)
    ∧ ((q.set_limit m).limit = some m)
    ∧ ((q.set_limit m).index = q.index)
    ∧ ((q.set_limit m).query = q.query)
    ∧ ((q.set_limit m).filters = q.filters)
    ∧ ((q.set_limit m).facets = q.facets)
    ∧ ((q.set_limit m).offset = q.offset)
    ∧ ((q.set_limit m).retrieve = q.retrieve)
    ∧ ((q.set_limit m).crop = q.crop)
    ∧ ((q.set_limit m).crop_length = q.crop_length)
    ∧ ((q.set_limit m).highlight = q.highlight)
    ∧ ((q.set_limit m).distribution = q.distribution)
    ∧ ((q.set_limit m).matchesFlag = q.matchesFlag)
    ∧ ((q.set_offset n).offset = some n)
    ∧ ((q.set_offset n).index = q.index)
    ∧ ((q.set_offset n).query = q.query)
    ∧ ((q.set_offset n).filters = q.filters)
    ∧ ((q.set_offset n).facets = q.facets)
    ∧ ((q.set_offset n).limit = q.limit)
    ∧ ((q.set_offset n).retrieve = q.retrieve)
    ∧ ((q.set_offset n).crop = q.crop)
    ∧ ((q.set_offset n).crop_length = q.crop_length)
    ∧ ((q.set_offset n).highlight = q.highlight)
    ∧ ((q.set_offset n).distribution = q.distribution)
    ∧ ((q.set_offset n).matchesFlag = q.matchesFlag)
    ∧ ((q.set_facets f).facets = some f.get)
    ∧ ((q.set_facets f).index = q.index)
    ∧ ((q.set_facets f).query = q.query)
    ∧ ((q.set_facets f).filters = q.filters)
    ∧ ((q.set_facets f).limit = q.limit)
    ∧ ((q.set_facets f).offset = q.offset)
    ∧ ((q.set_facets f).retrieve = q.retrieve)
    ∧ ((q.set_facets f).crop = q.crop)
    ∧ ((q.set_facets f).crop_length = q.crop_length)
    ∧ ((q.set_facets f).highlight = q.highlight)
    ∧ ((q.set_facets f).distribution = q.distribution)
    ∧ ((q.set_facets f).matchesFlag = q.matchesFlag)
    ∧ ((q.set_retrieve a).retrieve = some a)
    ∧ ((q.set_retrieve a).index = q.index)
    ∧ ((q.set_retrieve a).query = q.query)
    ∧ ((q.set_retrieve a).filters = q.filters)
    ∧ ((q.set_retrieve a).facets = q.facets)
    ∧ ((q.set_retrieve a).limit = q.limit)
    ∧ ((q.set_retrieve a).offset = q.offset)
    ∧ ((q.set_retrieve a).crop = q.crop)
    ∧ ((q.set_retrieve a).crop_length = q.crop_length)
    ∧ ((q.set_retrieve a).highlight = q.highlight)
    ∧ ((q.set_retrieve a).distribution = q.distribution)
    ∧ ((q.set_retrieve a).matchesFlag = q.matchesFlag)
    ∧ ((q.set_distribution b).distribution = some b)
    ∧ ((q.set_distribution b).index = q.index)
    ∧ ((q.set_distribution b).query = q.query)
    ∧ ((q.set_distribution b).filters = q.filters)
    ∧ ((q.set_distribution b).facets = q.facets)
    ∧ ((q.set_distribution b).limit = q.limit)
    ∧ ((q.set_distribution b).offset = q.offset)
    ∧ ((q.set_distribution b).retrieve = q.retrieve)
    ∧ ((q.set_distribution b).crop = q.crop)
    ∧ ((q.set_distribution b).crop_length = q.crop_length)
    ∧ ((q.set_distribution b).highlight = q.highlight)
    ∧ ((q.set_distribution b).matchesFlag = q.matchesFlag)
    ∧ ((q.set_crop c).crop = some (c.map Crop.serialize))
    ∧ ((q.set_crop c).index = q.index)
    ∧ ((q.set_crop c).query = q.query)
    ∧ ((q.set_crop c).filters = q.filters)
    ∧ ((q.set_crop c).facets = q.facets)
    ∧ ((q.set_crop c).limit = q.limit)
    ∧ ((q.set_crop c).offset = q.offset)
    ∧ ((q.set_crop c).retrieve = q.retrieve)
    ∧ ((q.set_crop c).crop_length = q.crop_length)
    ∧ ((q.set_crop c).highlight = q.highlight)
    ∧ ((q.set_crop c).distribution = q.distribution)
    ∧ ((q.set_crop c).matchesFlag = q.matchesFlag)
    ∧ ((q.set_crop_length p).crop_length = some p)
    ∧ ((q.set_crop_length p).index = q.index)
    ∧ ((q.set_crop_length p).query = q.query)
    ∧ ((q.set_crop_length p).filters = q.filters)
    ∧ ((q.set_crop_length p).facets = q.facets)
    ∧ ((q.set_crop_length p).limit = q.limit)
    ∧ ((q.set_crop_length p).offset = q.offset)
    ∧ ((q.set_crop_length p).retrieve = q.retrieve)
    ∧ ((q.set_crop_length p).crop = q.crop)
    ∧ ((q.set_crop_length p).highlight = q.highlight)
    ∧ ((q.set_crop_length p).distribution = q.distribution)
    ∧ ((q.set_crop_length p).matchesFlag = q.matchesFlag)
    ∧ ((q.set_highlight d).highlight = some d)
    ∧ ((q.set_highlight d).index = q.index)
    ∧ ((q.set_highlight d).query = q.query)
    ∧ ((q.set_highlight d).filters = q.filters)
    ∧ ((q.set_highlight d).facets = q.facets)
    ∧ ((q.set_highlight d).limit = q.limit)
    ∧ ((q.set_highlight d).offset = q.offset)
    ∧ ((q.set_highlight d).retrieve = q.retrieve)
    ∧ ((q.set_highlight d).crop = q.crop)
    ∧ ((q.set_highlight d).crop_length = q.crop_length)
    ∧ ((q.set_highlight d).distribution = q.distribution)
    ∧ ((q.set_highlight d).matchesFlag = q.matchesFlag)
    ∧ ((((Query.new idx).set_query "x").set_limit 10).set_offset 5
      = { index := idx, query := some "x", filters := none, facets := none,
          limit := some 10, offset := some 5, retrieve := none, crop := none,
          crop_length := none, highlight := none, distribution := none,
          matchesFlag := false }) :=
  ⟨rfl, rfl, rfl, rfl, rfl, rfl, rfl, rfl, rfl, rfl, rfl, rfl, rfl, rfl, rfl, rfl, rfl, rfl, rfl, rfl, rfl, rfl, rfl, rfl, rfl, rfl, rfl, rfl, rfl, rfl, rfl, rfl, rfl, rfl, rfl, rfl, rfl, rfl, rfl, rfl, rfl, rfl, rfl, rfl, rfl, rfl, rfl, rfl, rfl, rfl, rfl, rfl, rfl, rfl, rfl, rfl, rfl, rfl, rfl, rfl, rfl, rfl, rfl, rfl, rfl, rfl, rfl, rfl, rfl, rfl, rfl, rfl, rfl, rfl, rfl, rfl, rfl, rfl, rfl, rfl, rfl, rfl, rfl, rfl, rfl, rfl, rfl, rfl, rfl, rfl, rfl, rfl, rfl, rfl, rfl, rfl, rfl, rfl, rfl, rfl, rfl, rfl, rfl, rfl, rfl, rfl, rfl, rfl, rfl, rfl, rfl, rfl, rfl, rfl, rfl, rfl, rfl, rfl, rfl, rfl, rfl⟩

/-- C10: setters targeting distinct fields commute — applying any two of
them in either order to the same `Query` value yields equal values — and a
repeated call of any single setter overwrites the earlier value
(last-write-wins), including `facets`, whose second installation replaces
the first. -/
theorem query_setters_commute_overwrite (q : Query) (s s2 t t2 : String)
    (m m2 n n2 p p2 : Int) (f f2 : Facets) (a a2 b b2 d d2 : List String)
    (c c2 : List Crop) :
    (((q.set_query s).set_filters t) = ((q.set_filters t).set_query s))
    ∧ (((q.set_query s).set_limit m) = ((q.set_limit m).set_query s))
    ∧ (((q.set_query s).set_offset n) = ((q.set_offset n).set_query s))
    ∧ (((q.set_query s).set_facets f) = ((q.set_facets f).set_query s))
    ∧ (((q.set_query s).set_retrieve a) = ((q.set_retrieve a).set_query s))
    ∧ (((q.set_query s).set_distribution b) = ((q.set_distribution b).set_query s))
    ∧ (((q.set_query s).set_crop c) = ((q.set_crop c).set_query s))
    ∧ (((q.set_query s).set_crop_length p) = ((q.set_crop_length p).set_query s))
    ∧ (((q.set_query s).set_highlight d) = ((q.set_highlight d).set_query s))
    ∧ (((q.set_filters t).set_limit m) = ((q.set_limit m).set_filters t))
    ∧ (((q.set_filters t).set_offset n) = ((q.set_offset n).set_filters t))
    ∧ (((q.set_filters t).set_facets f) = ((q.set_facets f).set_filters t))
    ∧ (((q.set_filters t).set_retrieve a) = ((q.set_retrieve a).set_filters t))
    ∧ (((q.set_filters t).set_distribution b) = ((q.set_distribution b).set_filters t))
    ∧ (((q.set_filters t).set_crop c) = ((q.set_crop c).set_filters t))
    ∧ (((q.set_filters t).set_crop_length p) = ((q.set_crop_length p).set_filters t))
    ∧ (((q.set_filters t).set_highlight d) = ((q.set_highlight d).set_filters t))
    ∧ (((q.set_limit m).set_offset n) = ((q.set_offset n).set_limit m))
    ∧ (((q.set_limit m).set_facets f) = ((q.set_facets f).set_limit m))
    ∧ (((q.set_limit m).set_retrieve a) = ((q.set_retrieve a).set_limit m))
    ∧ (((q.set_limit m).set_distribution b) = ((q.set_distribution b).set_limit m))
    ∧ (((q.set_limit m).set_crop c) = ((q.set_crop c).set_limit m))
    ∧ (((q.set_limit m).set_crop_length p) = ((q.set_crop_length p).set_limit m))
    ∧ (((q.set_limit m).set_highlight d) = ((q.set_highlight d).set_limit m))
    ∧ (((q.set_offset n).set_facets f) = ((q.set_facets f).set_offset n))
    ∧ (((q.set_offset n).set_retrieve a) = ((q.set_retrieve a).set_offset n))
    ∧ (((q.set_offset n).set_distribution b) = ((q.set_distribution b).set_offset n))
    ∧ (((q.set_offset n).set_crop c) = ((q.set_crop c).set_offset n))
    ∧ (((q.set_offset n).set_crop_length p) = ((q.set_crop_length p).set_offset n))
    ∧ (((q.set_offset n).set_highlight d) = ((q.set_highlight d).set_offset n))
    ∧ (((q.set_facets f).set_retrieve a) = ((q.set_retrieve a).set_facets f))
    ∧ (((q.set_facets f).set_distribution b) = ((q.set_distribution b).set_facets f))
    ∧ (((q.set_facets f).set_crop c) = ((q.set_crop c).set_facets f))
    ∧ (((q.set_facets f).set_crop_length p) = ((q.set_crop_length p).set_facets f))
    ∧ (((q.set_facets f).set_highlight d) = ((q.set_highlight d).set_facets f))
    ∧ (((q.set_retrieve a).set_distribution b) = ((q.set_distribution b).set_retrieve a))
    ∧ (((q.set_retrieve a).set_crop c) = ((q.set_crop c).set_retrieve a))
    ∧ (((q.set_retrieve a).set_crop_length p) = ((q.set_crop_length p).set_retrieve a))
    ∧ (((q.set_retrieve a).set_highlight d) = ((q.set_highlight d).set_retrieve a))
    ∧ (((q.set_distribution b).set_crop c) = ((q.set_crop c).set_distribution b))
    ∧ (((q.set_distribution b).set_crop_length p) = ((q.set_crop_length p).set_distribution b))
    ∧ (((q.set_distribution b).set_highlight d) = ((q.set_highlight d).set_distribution b))
    ∧ (((q.set_crop c).set_crop_length p) = ((q.set_crop_length p).set_crop c))
    ∧ (((q.set_crop c).set_highlight d) = ((q.set_highlight d).set_crop c))
    ∧ (((q.set_crop_length p).set_highlight d) = ((q.set_highlight d).set_crop_length p))
    ∧ (((q.set_query s).set_query s2) = (q.set_query s2))
    ∧ (((q.set_filters t).set_filters t2) = (q.set_filters t2))
    ∧ (((q.set_limit m).set_limit m2) = (q.set_limit m2))
    ∧ (((q.set_offset n).set_offset n2) = (q.set_offset n2))
    ∧ (((q.set_facets f).set_facets f2) = (q.set_facets f2))
    ∧ (((q.set_retrieve a).set_retrieve a2) = (q.set_retrieve a2))
    ∧ (((q.set_distribution b).set_distribution b2) = (q.set_distribution b2))
    ∧ (((q.set_crop c).set_crop c2) = (q.set_crop c2))
    ∧ (((q.set_crop_length p).set_crop_length p2) = (q.set_crop_length p2))
    ∧ (((q.set_highlight d).set_highlight d2) = (q.set_highlight d2)) :=
  ⟨rfl, rfl, rfl, rfl, rfl, rfl, rfl, rfl, rfl, rfl, rfl, rfl, rfl, rfl, rfl, rfl, rfl, rfl, rfl, rfl, rfl, rfl, rfl, rfl, rfl, rfl, rfl, rfl, rfl, rfl, rfl, rfl, rfl, rfl, rfl, rfl, rfl, rfl, rfl, rfl, rfl, rfl, rfl, rfl, rfl, rfl, rfl, rfl, rfl, rfl, rfl, rfl, rfl, rfl, rfl⟩

lemma applySetter_matchesFlag (q : Query) (s : Setter) :
    (applySetter q s).matchesFlag = q.matchesFlag := by
  cases s <;> rfl

lemma applySetters_matchesFlag (q : Query) (calls : List Setter) :
    (applySetters q calls).matchesFlag = q.matchesFlag := by
  induction calls generalizing q with
  | nil => rfl
  | cons s rest ih =>
    simp only [applySetters, List.foldl_cons] at ih ⊢
    rw [ih, applySetter_matchesFlag]

lemma serialize_lookup_matches (q : Query) :
    jlookup q.serialize "matches" = some (Json.bool q.matchesFlag) := by
  simp [Query.serialize, jlookup]

lemma VecIter.collect_mk (l : List T) : VecIter.collect ⟨l⟩ = l := by
  induction l with
  | nil => simp [VecIter.collect]
  | cons x xs ih => simp only [VecIter.collect, ih]

lemma VecIter.exhaust_mk (l : List T) :
    VecIter.exhaust (⟨l⟩ : VecIter T) = ⟨[]⟩ := by
  induction l with
  | nil => simp [VecIter.exhaust]
  | cons x xs ih => simpa only [VecIter.exhaust] using ih

/-- Witness for C8: a concrete built spec contains its first group, which is
nonempty by the theorem. -/
theorem facetBuilder_no_empty_group_witness :
    (["company:ACME", "company:Big Corp"]
        ∈ (applyFacetCalls (FacetBuilder.new "company" "ACME")
            [FacetCall.orC "company" "Big Corp",
             FacetCall.andC "roles" "Tech"]).build.get)
    ∧ ["company:ACME", "company:Big Corp"] ≠ ([] : List String) :=
  ⟨by decide,
   (facetBuilder_no_empty_group "company" "ACME"
      [FacetCall.orC "company" "Big Corp", FacetCall.andC "roles" "Tech"]).2
      ["company:ACME", "company:Big Corp"] (by decide)⟩

/-- C5: `crop(directives)` maps each crop directive, elementwise and in call
order, to its serialized string form — `Attr(a)` to `a` and `At(a, n)` to
`a:n` — and stores exactly that list; in particular
`[Attr("overview"), At("description", 10)]` serializes to
`["overview", "description:10"]`. -/
theorem crop_serialization (q : Query) (directives : List Crop) (attr : String)
    (n : Int) :
    ((q.set_crop directives).crop = some (directives.map Crop.serialize))
    ∧ (Crop.serialize (Crop.Attr attr) = attr)
    ∧ (Crop.serialize (Crop.At attr n) = attr ++ ":" ++ toString n)
    ∧ ((q.set_crop [Crop.Attr "overview", Crop.At "description" 10]).crop
        = some ["overview", "description:10"]) := by
  refine ⟨rfl, rfl, rfl, ?_⟩
  have h : ([Crop.Attr "overview", Crop.At "description" 10]).map Crop.serialize
      = ["overview", "description:10"] := by decide
  exact congrArg some h

/-- C6: the query builder exposes no setter for the match-position flag (the
`Setter` type enumerates every public setter), so on every `Query` reachable
from `Query::new` by any sequence of setter calls the flag is still `false`,
and the serialized request body carries the field `matches` with value
`false`. -/
theorem matches_always_false (index : String) (calls : List Setter) :
    ((applySetters (Query.new index) calls).matchesFlag = false)
    ∧ (jlookup (applySetters (Query.new index) calls).serialize "matches"
        = some (Json.bool false)) := by
  have h : (applySetters (Query.new index) calls).matchesFlag = false := by
    rw [applySetters_matchesFlag]; rfl
  exact ⟨h, by rw [serialize_lookup_matches, h]⟩

/-- C7: iterating a decoded `Results` value by reference yields exactly the
backend-assigned hit sequence, unchanged (no sorting, filtering, or
deduplication), and is repeatable; consuming iteration yields exactly the
same sequence once, after which the iterator is exhausted and yields
nothing. -/
theorem results_iteration (T : Type) (r : Results T) :
    (r.iterRef.collect = r.results)
    ∧ (r.iterRef.collect = r.iterRef.collect)
    ∧ (r.into_iter.collect = r.results)
    ∧ (r.into_iter.exhaust.next = none) := by
  refine ⟨?_, rfl, ?_, ?_⟩
  · exact VecIter.collect_mk r.results
  · exact VecIter.collect_mk r.results
  · rw [Results.into_iter, VecIter.exhaust_mk]; rfl

/-- C9: the document-deletion operation issues an HTTP GET request — not a
DELETE — to the path `/indexes/{index}/documents/{uid}`, and decodes the
response body as an `Update` descriptor (wrapping send or decode failure as
the upstream error). -/
theorem delete_document_uses_get (index uid : String) :
    ((deleteDocumentRequest index uid).1 = Method.GET)
    ∧ ((deleteDocumentRequest index uid).1 ≠ Method.DELETE)
    ∧ ((deleteDocumentRequest index uid).2
        = "/indexes/" ++ index ++ "/documents/" ++ uid)
    ∧ (∀ status body u, decodeUpdate body = some u →
        deleteDocumentHandle (.response status body) = .ok u)
    ∧ (∀ status body, decodeUpdate body = none →
        deleteDocumentHandle (.response status body)
          = .error (.UpstreamError (.decode body)))
    ∧ (∀ m, deleteDocumentHandle (.failure m)
        = .error (.UpstreamError (.send m))) := by
  refine ⟨rfl, fun h => Method.noConfusion h, rfl, ?_, ?_, fun m => rfl⟩
  · intro status body u h
    simp [deleteDocumentHandle, h]
  · intro status body h
    simp [deleteDocumentHandle, h]

/-- Witness for C9: concrete deletion response decoding through the theorem. -/
theorem delete_document_uses_get_witness :
    (decodeUpdate (Json.obj [("updateId", Json.num 7)]) = some ⟨7⟩)
    ∧ (deleteDocumentHandle (.response 200 (Json.obj [("updateId", Json.num 7)]))
        = .ok ⟨7⟩) :=
  ⟨rfl, (delete_document_uses_get "employees" "lskywalker").2.2.2.1 200
    (Json.obj [("updateId", Json.num 7)]) ⟨7⟩ rfl⟩

lemma run_send_failure (decodeT : Json → Option T) (q : Query) (m : String) :
    q.run decodeT (.failure m) = .error (.UpstreamError (.send m)) := rfl

lemma run_ok_of_decode (decodeT : Json → Option T) (q : Query) (body : Json)
    (rs : Results T) (h : decodeResults decodeT body = some rs) :
    q.run decodeT (.response 200 body) = .ok rs := by
  simp [Query.run, h]

lemma run_ok_decode_fail (decodeT : Json → Option T) (q : Query) (body : Json)
    (h : decodeResults decodeT body = none) :
    q.run decodeT (.response 200 body) = .error (.UpstreamError (.decode body)) := by
  simp [Query.run, h]

lemma run_reject_of_decode (decodeT : Json → Option T) (q : Query) (status : Nat)
    (body : Json) (e : QueryError) (hs : status ≠ 200)
    (h : decodeQueryError body = some e) :
    q.run decodeT (.response status body) = .error (.InvalidQuery e) := by
  simp [Query.run, hs, h]

lemma run_reject_decode_fail (decodeT : Json → Option T) (q : Query) (status : Nat)
    (body : Json) (hs : status ≠ 200) (h : decodeQueryError body = none) :
    q.run decodeT (.response status body)
      = .error (.UpstreamError (.decode body)) := by
  simp [Query.run, hs, h]

/-- C1: every `run` call has exactly one of three outcomes — a decoded
`Results` returned `Ok` (success status and the body decodes), the
invalid-query failure carrying the decoded `QueryError` payload (any other
status and the body decodes as the error shape), or the upstream/transport
failure wrapping the underlying cause (send failure, or decode failure of
either body shape). Never a partial result. -/
theorem run_exactly_one (T : Type) (decodeT : Json → Option T) (q : Query)
    (o : SendOutcome) :
    ((∃ rs, q.run decodeT o = .ok rs)
      ∨ (∃ e, q.run decodeT o = .error (.InvalidQuery e))
      ∨ (∃ c, q.run decodeT o = .error (.UpstreamError c)))
    ∧ (∀ rs, q.run decodeT o = .ok rs →
        ∃ body, o = .response 200 body ∧ decodeResults decodeT body = some rs)
    ∧ (∀ e, q.run decodeT o = .error (.InvalidQuery e) →
        ∃ status body, o = .response status body ∧ status ≠ 200
          ∧ decodeQueryError body = some e)
    ∧ (∀ c, q.run decodeT o = .error (.UpstreamError c) →
        (∃ m, o = .failure m ∧ c = .send m)
        ∨ (∃ status body, o = .response status body ∧ c = .decode body
            ∧ ((status = 200 ∧ decodeResults decodeT body = none)
              ∨ (status ≠ 200 ∧ decodeQueryError body = none)))) := by
  rcases o with m | ⟨status, body⟩
  · refine ⟨Or.inr (Or.inr ⟨.send m, rfl⟩), ?_, ?_, ?_⟩
    · intro rs h
      exact absurd h (by simp [Query.run])
    · intro e h
      rw [run_send_failure] at h
      simp only [Except.error.injEq] at h
      exact absurd h (by simp)
    · intro c h
      rw [run_send_failure] at h
      simp only [Except.error.injEq, Error.UpstreamError.injEq] at h
      exact Or.inl ⟨m, rfl, h.symm⟩
  · by_cases hst : status = 200
    · subst hst
      rcases hd : decodeResults decodeT body with _ | rs
      · have hrun := run_ok_decode_fail decodeT q body hd
        refine ⟨Or.inr (Or.inr ⟨_, hrun⟩), ?_, ?_, ?_⟩
        · intro rs h
          rw [hrun] at h
          exact absurd h (by simp)
        · intro e h
          rw [hrun] at h
          simp only [Except.error.injEq] at h
          exact absurd h (by simp)
        · intro c h
          rw [hrun] at h
          simp only [Except.error.injEq, Error.UpstreamError.injEq] at h
          exact Or.inr ⟨200, body, rfl, h.symm, Or.inl ⟨rfl, hd⟩⟩
      · have hrun := run_ok_of_decode decodeT q body rs hd
        refine ⟨Or.inl ⟨rs, hrun⟩, ?_, ?_, ?_⟩
        · intro rs2 h
          rw [hrun] at h
          simp only [Except.ok.injEq] at h
          subst h
          exact ⟨body, rfl, hd⟩
        · intro e h
          rw [hrun] at h
          exact absurd h (by simp)
        · intro c h
          rw [hrun] at h
          exact absurd h (by simp)
    · rcases hd : decodeQueryError body with _ | e
      · have hrun := run_reject_decode_fail decodeT q status body hst hd
        refine ⟨Or.inr (Or.inr ⟨_, hrun⟩), ?_, ?_, ?_⟩
        · intro rs h
          rw [hrun] at h
          exact absurd h (by simp)
        · intro e h
          rw [hrun] at h
          simp only [Except.error.injEq] at h
          exact absurd h (by simp)
        · intro c h
          rw [hrun] at h
          simp only [Except.error.injEq, Error.UpstreamError.injEq] at h
          exact Or.inr ⟨status, body, rfl, h.symm, Or.inr ⟨hst, hd⟩⟩
      · have hrun := run_reject_of_decode decodeT q status body e hst hd
        refine ⟨Or.inr (Or.inl ⟨e, hrun⟩), ?_, ?_, ?_⟩
        · intro rs h
          rw [hrun] at h
          exact absurd h (by simp)
        · intro e2 h
          rw [hrun] at h
          simp only [Except.error.injEq, Error.InvalidQuery.injEq] at h
          subst h
          exact ⟨status, body, rfl, hst, hd⟩
        · intro c h
          rw [hrun] at h
          simp only [Except.error.injEq] at h
          exact absurd h (by simp)

/-- Witness for C1: a concrete successful run, fed through the theorem's
success-inversion conjunct. -/
theorem run_exactly_one_witness :
    (Query.run (fun _ => some ()) (Query.new "employees")
        (.response 200 (Json.obj [("query", Json.str "johnson"),
          ("exhaustiveNbHits", Json.bool true), ("nbHits", Json.num 2),
          ("limit", Json.num 20), ("offset", Json.num 0),
          ("processingTimeMs", Json.num 3),
          ("hits", Json.arr [Json.null, Json.null])]))
      = .ok ⟨"johnson", true, 2, none, none, 20, 0, 3, [(), ()]⟩)
    ∧ (∃ body, (SendOutcome.response 200 (Json.obj [("query", Json.str "johnson"),
          ("exhaustiveNbHits", Json.bool true), ("nbHits", Json.num 2),
          ("limit", Json.num 20), ("offset", Json.num 0),
          ("processingTimeMs", Json.num 3),
          ("hits", Json.arr [Json.null, Json.null])]))
        = .response 200 body
        ∧ decodeResults (fun _ => some ()) body
          = some ⟨"johnson", true, 2, none, none, 20, 0, 3, [(), ()]⟩) :=
  ⟨by rfl,
   (run_exactly_one Unit (fun _ => some ()) (Query.new "employees")
      (.response 200 (Json.obj [("query", Json.str "johnson"),
        ("exhaustiveNbHits", Json.bool true), ("nbHits", Json.num 2),
        ("limit", Json.num 20), ("offset", Json.num 0),
        ("processingTimeMs", Json.num 3),
        ("hits", Json.arr [Json.null, Json.null])]))).2.1
      ⟨"johnson", true, 2, none, none, 20, 0, 3, [(), ()]⟩ (by rfl)⟩

/-- C4: on a non-success-status response whose body is a well-formed error
payload, `run` returns the invalid-query error whose `kind`, `code`,
`message` and `link` fields are verbatim the JSON fields `errorType`,
`errorCode`, `message` and `errorLink`; on the same non-success status with
a body that does not decode as the error shape, `run` returns the
upstream/transport error and never the invalid-query error. -/
theorem run_non_success_discrimination (T : Type) (decodeT : Json → Option T)
    (q : Query) (status : Nat) (body : Json) (hs : status ≠ 200) :
    (∀ fields kind code msg link,
        body = Json.obj fields →
        jlookup fields "errorType" = some (.str kind) →
        jlookup fields "errorCode" = some (.str code) →
        jlookup fields "message" = some (.str msg) →
        jlookup fields "errorLink" = some (.str link) →
        q.run decodeT (.response status body)
          = .error (.InvalidQuery ⟨kind, code, msg, link⟩))
    ∧ (decodeQueryError body = none →
        (q.run decodeT (.response status body)
            = .error (.UpstreamError (.decode body)))
        ∧ (∀ e, q.run decodeT (.response status body)
            ≠ .error (.InvalidQuery e))) := by
  constructor
  · intro fields kind code msg link hb h1 h2 h3 h4
    subst hb
    have hdec : decodeQueryError (Json.obj fields)
        = some ⟨kind, code, msg, link⟩ := by
      simp [decodeQueryError, decodeStrField, h1, h2, h3, h4]
    exact run_reject_of_decode decodeT q status _ _ hs hdec
  · intro hnone
    have hrun := run_reject_decode_fail decodeT q status body hs hnone
    refine ⟨hrun, ?_⟩
    intro e h
    rw [hrun] at h
    simp only [Except.error.injEq] at h
    exact absurd h (by simp)

/-- Witness for C4: a concrete 400 response with a well-formed error body,
fed through the theorem. -/
theorem run_non_success_discrimination_witness :
    ((400 : Nat) ≠ 200)
    ∧ (Query.run (fun _ => some ()) (Query.new "employees")
        (.response 400 (Json.obj [("errorType", Json.str "invalid_request_error"),
          ("errorCode", Json.str "bad_request"),
          ("message", Json.str "unknown field"),
          ("errorLink", Json.str "https://docs.meilisearch.com/errors")]))
      = .error (.InvalidQuery ⟨"invalid_request_error", "bad_request",
          "unknown field", "https://docs.meilisearch.com/errors"⟩)) :=
  ⟨by decide,
   (run_non_success_discrimination Unit (fun _ => some ()) (Query.new "employees")
      400 (Json.obj [("errorType", Json.str "invalid_request_error"),
        ("errorCode", Json.str "bad_request"),
        ("message", Json.str "unknown field"),
        ("errorLink", Json.str "https://docs.meilisearch.com/errors")])
      (by decide)).1
    [("errorType", Json.str "invalid_request_error"),
     ("errorCode", Json.str "bad_request"),
     ("message", Json.str "unknown field"),
     ("errorLink", Json.str "https://docs.meilisearch.com/errors")]
    "invalid_request_error" "bad_request" "unknown field"
    "https://docs.meilisearch.com/errors" rfl rfl rfl rfl rfl⟩

end Meilimelo
